import Mathlib

/-
Verification of the analytical core of the SupersonicNozzleCalculations
repository: isentropic flow relations (inlet_temperature.py,
exit_temperature.py, exit_velocity.py), the nozzle geometry model
(nozzle_geometry.py), the film-cooling correlation model (film_cooling.py)
and the CFD validation comparator (cfd_integration.py).

Python floats are modelled as exact rationals; square roots, real powers
and cosines that appear in the formulas are modelled over the reals.
Python exceptions are modelled by the PyErr type below, with the error
kinds the design documentation names (DomainError, ConfigurationError,
ValidationError) included so that statements about them can be expressed;
the code itself defines no such classes, and only ever lets the built-in
ValueError / ZeroDivisionError / TypeError escape.
-/

namespace NozzleCalc

/-- Model of the Python exceptions the analytical core can raise, together
with the error kinds named by the design documentation (domainError,
configurationError, validationError) which do not exist as classes in the
code but are needed to state claims about them. -/
inductive PyErr where
  | valueError (msg : String)
  | zeroDivisionError (msg : String)
  | typeError (msg : String)
  | domainError (msg : String)
  | configurationError (msg : String)
  | validationError (msg : String)
  deriving Repr, DecidableEq

/-- Whether an error is the DomainError kind named by the documentation. -/
def PyErr.isDomain : PyErr → Bool
  | .domainError _ => true
  | _ => false

/-- Whether an error is the ValidationError kind named by the documentation. -/
def PyErr.isValidation : PyErr → Bool
  | .validationError _ => true
  | _ => false

/-- A fallible computation fails specifically with a DomainError. -/
def failsWithDomainError {α : Type} : Except PyErr α → Bool
  | .error e => e.isDomain
  | .ok _ => false

/-- A fallible computation fails specifically with a ValidationError. -/
def failsWithValidationError {α : Type} : Except PyErr α → Bool
  | .error e => e.isValidation
  | .ok _ => false

/-- A fallible computation returns normally. -/
def succeeds {α : Type} : Except PyErr α → Bool
  | .ok _ => true
  | .error _ => false

/-! ## Flow relations

`inlet_temperature.py`: `calc_total_temperature(T, M, gamma=1.4)` returns
`T * (1 + ((gamma - 1) / 2) * M**2)`.

`exit_temperature.py`: `calc_static_exit_temperature(T0, Me, gamma=1.4)`
returns `T0 / (1 + ((gamma - 1) / 2) * Me**2)`.

`exit_velocity.py`: `calc_exit_velocity(cp, T0, Te)` returns
`math.sqrt(2 * cp * (T0 - Te))`; Python's `math.sqrt` raises
`ValueError("math domain error")` on a negative argument. -/

/-- Stagnation temperature from static temperature and Mach number
(`inlet_temperature.py`). -/
def calc_total_temperature (T M gamma : ℚ) : ℚ :=
  T * (1 + ((gamma - 1) / 2) * M ^ 2)

/-- Static exit temperature from stagnation temperature and exit Mach number
(`exit_temperature.py`). -/
def calc_static_exit_temperature (T0 Me gamma : ℚ) : ℚ :=
  T0 / (1 + ((gamma - 1) / 2) * Me ^ 2)

/-- Exit velocity `math.sqrt(2 * cp * (T0 - Te))` (`exit_velocity.py`).
`math.sqrt` raises `ValueError("math domain error")` when the radicand
`2 * cp * (T0 - Te)` is negative, otherwise it returns the nonnegative
square root. -/
noncomputable def calc_exit_velocity (cp T0 Te : ℚ) : Except PyErr ℝ :=
  if 2 * cp * (T0 - Te) < 0 then .error (.valueError "math domain error")
  else .ok (Real.sqrt ((2 * cp * (T0 - Te) : ℚ) : ℝ))

/-- C1: for every static temperature T, Mach number M ≥ 0 and specific-heat
ratio γ > 1, composing the two flow relations at the same Mach number is the
identity: `calc_static_exit_temperature (calc_total_temperature T M γ) M γ = T`. -/
theorem total_static_roundtrip (T M gamma : ℚ) (hg : 1 < gamma) (hM : 0 ≤ M) :
    calc_static_exit_temperature (calc_total_temperature T M gamma) M gamma = T := by
  have hnum : (0:ℚ) ≤ ((gamma - 1) / 2) * M ^ 2 :=
    mul_nonneg (by linarith) (sq_nonneg M)
  have hden : (0:ℚ) < 1 + ((gamma - 1) / 2) * M ^ 2 := by linarith
  unfold calc_static_exit_temperature calc_total_temperature
  rw [mul_div_assoc, div_self (ne_of_gt hden), mul_one]

/-- Witness for C1 at T = 300, M = 1/2, γ = 7/5 (spec Scenarios A/B). -/
theorem total_static_roundtrip_witness :
    (1:ℚ) < 7/5 ∧ (0:ℚ) ≤ 1/2 ∧
      calc_static_exit_temperature (calc_total_temperature 300 (1/2) (7/5)) (1/2) (7/5) = 300 :=
  ⟨by norm_num, by norm_num,
    total_static_roundtrip 300 (1/2) (7/5) (by norm_num) (by norm_num)⟩

/-- C5 counterexample: at cp = 1005, T0 = 300, Te = 400 the radicand is
negative and `calc_exit_velocity` fails, but with the `ValueError` raised by
`math.sqrt`, not with the DomainError kind the claim names. -/
theorem calc_exit_velocity_counterexample :
    calc_exit_velocity 1005 300 400 = .error (.valueError "math domain error") ∧
    failsWithDomainError (calc_exit_velocity 1005 300 400) = false := by
  have h : calc_exit_velocity 1005 300 400 = .error (.valueError "math domain error") := by
    unfold calc_exit_velocity
    norm_num
  exact ⟨h, by rw [h]; rfl⟩

/-- C5 (amended): `calc_exit_velocity cp T0 Te` returns
`sqrt (2 * cp * (T0 - Te))` when `T0 ≥ Te`, and fails with the
`ValueError("math domain error")` raised by `math.sqrt` — rather than
returning a complex or NaN result — whenever `T0 < Te` (with cp > 0). -/
theorem calc_exit_velocity_spec (cp T0 Te : ℚ) (hcp : 0 < cp) :
    (Te ≤ T0 →
      calc_exit_velocity cp T0 Te = .ok (Real.sqrt ((2 * cp * (T0 - Te) : ℚ) : ℝ))) ∧
    (T0 < Te →
      calc_exit_velocity cp T0 Te = .error (.valueError "math domain error")) := by
  constructor
  · intro hle
    have h : ¬ (2 * cp * (T0 - Te) < 0) := by
      push_neg
      exact mul_nonneg (by linarith) (by linarith)
    unfold calc_exit_velocity
    rw [if_neg h]
  · intro hlt
    have h : 2 * cp * (T0 - Te) < 0 :=
      mul_neg_of_pos_of_neg (by linarith) (by linarith)
    unfold calc_exit_velocity
    rw [if_pos h]

/-- Witness for C5 at cp = 1, T0 = 2, Te = 1. -/
theorem calc_exit_velocity_spec_witness :
    (0:ℚ) < 1 ∧ (1:ℚ) ≤ 2 ∧
      calc_exit_velocity 1 2 1 = .ok (Real.sqrt ((2 * 1 * ((2:ℚ) - 1) : ℚ) : ℝ)) :=
  ⟨by norm_num, by norm_num,
    (calc_exit_velocity_spec 1 2 1 (by norm_num)).1 (by norm_num)⟩

/-! ## Nozzle geometry (`nozzle_geometry.py`)

`NozzleGeometry` is a plain dataclass holding throat_area, exit_area and
length; its generated `__init__` performs no validation whatsoever.
`ConvergentDivergentNozzle.__init__` and `EllipticNozzle.__init__` only store
extra fields, so they can never raise. `BellNozzle.__init__` calls
`_generate_contour`, which computes `a = (exit_area - throat_area) / length**3`;
when `length == 0` that float division raises `ZeroDivisionError`, and this
is the only way any of the three constructors can fail. -/

/-- Base dataclass fields of `NozzleGeometry`. -/
structure NozzleGeometry where
  throat_area : ℚ
  exit_area : ℚ
  length : ℚ
  deriving Repr, DecidableEq

/-- Fields of `ConvergentDivergentNozzle`. -/
structure ConvergentDivergentNozzle extends NozzleGeometry where
  convergent_angle : ℚ
  divergent_angle : ℚ
  deriving Repr, DecidableEq

/-- Fields of `EllipticNozzle`. -/
structure EllipticNozzle extends NozzleGeometry where
  num_lobes : ℕ
  lobe_angle : ℚ
  deriving Repr, DecidableEq

/-- Fields of `BellNozzle`; `contour_points` is computed and cached by
`__init__` via `_generate_contour`. -/
structure BellNozzle extends NozzleGeometry where
  wall_angle : ℚ
  contour_points : List (ℚ × ℚ)
  deriving Repr, DecidableEq

/-- Contour generation `BellNozzle._generate_contour`: `np.linspace(0, length, 100)` yields the
points `length * i / 99` for `i = 0, …, 99`, and the contour is
`y = throat_area + a * x**3` with `a = (exit_area - throat_area) / length**3`. -/
def bell_contour (t e l : ℚ) : List (ℚ × ℚ) :=
  let a := (e - t) / l ^ 3
  (List.range 100).map (fun i => (l * i / 99, t + a * (l * i / 99) ^ 3))

/-- Constructor `ConvergentDivergentNozzle.__init__`: stores the fields and the two fixed
angles; it contains no check and never raises. -/
def mkConvergentDivergentNozzle (t e l : ℚ) : Except PyErr ConvergentDivergentNozzle :=
  .ok { throat_area := t, exit_area := e, length := l,
        convergent_angle := 30, divergent_angle := 15 }

/-- Constructor `EllipticNozzle.__init__`: stores the fields; it contains no check and
never raises. -/
def mkEllipticNozzle (t e l : ℚ) (num_lobes : ℕ) (lobe_angle : ℚ) :
    Except PyErr EllipticNozzle :=
  .ok { throat_area := t, exit_area := e, length := l,
        num_lobes := num_lobes, lobe_angle := lobe_angle }

/-- Constructor `BellNozzle.__init__`: stores the fields and caches the contour; the
division `(exit_area - throat_area) / length**3` in `_generate_contour`
raises `ZeroDivisionError` when `length == 0`, and nothing else can raise. -/
def mkBellNozzle (t e l wall_angle : ℚ) : Except PyErr BellNozzle :=
  if l = 0 then .error (.zeroDivisionError "float division by zero")
  else .ok { throat_area := t, exit_area := e, length := l,
             wall_angle := wall_angle, contour_points := bell_contour t e l }

/-- C6 counterexample: constructing all three variants with
throat_area = -1 ≤ 0 and length = -1 ≤ 0 succeeds; no ConfigurationError is
raised. -/
theorem nozzle_construction_counterexample :
    succeeds (mkConvergentDivergentNozzle (-1) 2 (-1)) = true ∧
    succeeds (mkEllipticNozzle (-1) 2 (-1) 4 45) = true ∧
    succeeds (mkBellNozzle (-1) 2 (-1) 15) = true := by
  refine ⟨rfl, rfl, ?_⟩
  unfold mkBellNozzle
  rw [if_neg (by norm_num)]
  rfl

/-- C6 (amended): construction performs no validation — the
ConvergentDivergent and Elliptic constructors succeed for every length and
throat area (including non-positive ones), and the Bell constructor succeeds
for every length ≠ 0 but fails with the `ZeroDivisionError` from its contour
computation (not a ConfigurationError) when length = 0. -/
theorem nozzle_construction_no_validation (t e l : ℚ) (n : ℕ) (la wa : ℚ) :
    succeeds (mkConvergentDivergentNozzle t e l) = true ∧
    succeeds (mkEllipticNozzle t e l n la) = true ∧
    (l ≠ 0 → succeeds (mkBellNozzle t e l wa) = true) ∧
    (l = 0 → mkBellNozzle t e l wa = .error (.zeroDivisionError "float division by zero")) := by
  refine ⟨rfl, rfl, ?_, ?_⟩
  · intro hl
    unfold mkBellNozzle
    rw [if_neg hl]
    rfl
  · intro hl
    unfold mkBellNozzle
    rw [if_pos hl]

/-- Witness for C6 (amended) at concrete nozzles. -/
theorem nozzle_construction_no_validation_witness :
    succeeds (mkConvergentDivergentNozzle 1 2 3) = true ∧
    succeeds (mkEllipticNozzle 1 2 3 4 45) = true ∧
    succeeds (mkBellNozzle 1 2 3 15) = true ∧
    mkBellNozzle 1 2 0 15 = .error (.zeroDivisionError "float division by zero") :=
  ⟨(nozzle_construction_no_validation 1 2 3 4 45 15).1,
   (nozzle_construction_no_validation 1 2 3 4 45 15).2.1,
   (nozzle_construction_no_validation 1 2 3 4 45 15).2.2.1 (by norm_num),
   (nozzle_construction_no_validation 1 2 0 4 45 15).2.2.2 rfl⟩

/-- Function `calculate_expansion_ratio(nozzle, gamma, M_exit)` from
`nozzle_geometry.py`: the isentropic area–Mach relation; the `nozzle`
parameter appears in the signature but is never used in the body. -/
noncomputable def calculate_expansion_ratio (nozzle : NozzleGeometry)
    (gamma M_exit : ℝ) : ℝ :=
  ((1 + ((gamma - 1) / 2) * M_exit ^ 2) / ((gamma + 1) / 2)) ^
    ((gamma + 1) / (2 * (gamma - 1)))

/-- C9: `calculate_expansion_ratio` depends only on gamma and M_exit, not on
the nozzle argument, and equals
`((1 + ((γ-1)/2)·M²) / ((γ+1)/2)) ^ ((γ+1)/(2(γ-1)))`. -/
theorem expansion_ratio_ignores_nozzle (n1 n2 : NozzleGeometry)
    (gamma M_exit : ℝ) (hg : 1 < gamma) :
    calculate_expansion_ratio n1 gamma M_exit = calculate_expansion_ratio n2 gamma M_exit ∧
    calculate_expansion_ratio n1 gamma M_exit =
      ((1 + ((gamma - 1) / 2) * M_exit ^ 2) / ((gamma + 1) / 2)) ^
        ((gamma + 1) / (2 * (gamma - 1))) :=
  ⟨rfl, rfl⟩

/-- Witness for C9 at two distinct nozzles, γ = 7/5, M_exit = 2. -/
theorem expansion_ratio_ignores_nozzle_witness :
    (1:ℝ) < 7/5 ∧
      calculate_expansion_ratio ⟨1, 2, 3⟩ (7/5) 2 =
        calculate_expansion_ratio ⟨5, 6, 7⟩ (7/5) 2 :=
  ⟨by norm_num,
    (expansion_ratio_ignores_nozzle ⟨1, 2, 3⟩ ⟨5, 6, 7⟩ (7/5) 2 (by norm_num)).1⟩

/-! ## Film cooling (`film_cooling.py`)

The coolant property table `COOLANT_PROPERTIES`, the `InjectionConfig`
dataclass, the `FilmCoolingAnalysis` methods and the batch driver
`analyze_cooling_performance` are embedded below. The per-point quantities
are modelled over the reals (the correlations use fractional powers and a
cosine); the rational sub-expressions (momentum ratio, dimensionless
distance, Reynolds number) are kept exact. -/

/-- Coolant species supported by the table (`CoolantType` enum). -/
inductive CoolantType where
  | air
  | helium
  | neon
  deriving Repr, DecidableEq

/-- One record of the coolant property table (`CoolantProperties` dataclass). -/
structure CoolantProperties where
  name : CoolantType
  specific_heat : ℚ
  thermal_conductivity : ℚ
  viscosity : ℚ
  density : ℚ
  deriving Repr, DecidableEq

/-- The fixed three-entry coolant property database `COOLANT_PROPERTIES`. -/
def COOLANT_PROPERTIES : CoolantType → CoolantProperties
  | .air => { name := .air, specific_heat := 1005.0,
              thermal_conductivity := 0.0262, viscosity := 1.84e-5,
              density := 1.225 }
  | .helium => { name := .helium, specific_heat := 5193.0,
                 thermal_conductivity := 0.1513, viscosity := 1.97e-5,
                 density := 0.1786 }
  | .neon => { name := .neon, specific_heat := 1030.0,
               thermal_conductivity := 0.0491, viscosity := 3.13e-5,
               density := 0.8999 }

/-- The `InjectionConfig` dataclass: injection angle (degrees from wall),
slot dimensions, blowing ratio, coolant species, coolant temperature and
coolant injection velocity. -/
structure InjectionConfig where
  angle : ℚ
  slot_height : ℚ
  slot_width : ℚ
  blowing_ratio : ℚ
  coolant_type : CoolantType
  coolant_temp : ℚ
  coolant_velocity : ℚ
  deriving Repr, DecidableEq

/-- Modelled from the spec: the data-model constraints on a valid
`InjectionConfig` (§3: angle in 0–90°, slot height > 0, slot width > 0,
blowing ratio > 0, coolant temperature > 0, coolant velocity > 0). The code
itself never validates these. -/
def InjectionConfig.Valid (c : InjectionConfig) : Prop :=
  0 ≤ c.angle ∧ c.angle ≤ 90 ∧ 0 < c.slot_height ∧ 0 < c.slot_width ∧
    0 < c.blowing_ratio ∧ 0 < c.coolant_temp ∧ 0 < c.coolant_velocity

instance (c : InjectionConfig) : Decidable c.Valid := by
  unfold InjectionConfig.Valid
  infer_instance

/-- The `momentum_ratio` local of `calculate_effectiveness`:
`blowing_ratio * (coolant_density / air_density) * (coolant_velocity / main_velocity)**2`.
Note the blowing ratio enters to the first power. -/
def momentum_ratio (c : InjectionConfig) (main_velocity : ℚ) : ℚ :=
  c.blowing_ratio *
    ((COOLANT_PROPERTIES c.coolant_type).density / (COOLANT_PROPERTIES .air).density) *
    (c.coolant_velocity / main_velocity) ^ 2

/-- Method `FilmCoolingAnalysis.calculate_effectiveness`: with `x_plus = x / slot_height`
and `angle_factor = cos(radians(angle))`, the raw correlation is
`1.9 * momentum_ratio**0.2 * x_plus**(-0.2) * angle_factor`, clamped into
[0, 1] by `max(0.0, min(1.0, effectiveness))`. -/
noncomputable def calculate_effectiveness (c : InjectionConfig)
    (x main_temp main_velocity : ℚ) : ℝ :=
  let x_plus : ℚ := x / c.slot_height
  let angle_factor : ℝ := Real.cos ((c.angle : ℝ) * Real.pi / 180)
  let effectiveness : ℝ :=
    1.9 * ((momentum_ratio c main_velocity : ℚ) : ℝ) ^ (0.2 : ℝ) *
      ((x_plus : ℚ) : ℝ) ^ (-0.2 : ℝ) * angle_factor
  max 0 (min 1 effectiveness)

/-- Method `FilmCoolingAnalysis.calculate_wall_temperature`:
`main_temp - effectiveness * (main_temp - coolant_temp)`. -/
noncomputable def calculate_wall_temperature (c : InjectionConfig)
    (x main_temp main_velocity : ℚ) : ℝ :=
  (main_temp : ℝ) -
    calculate_effectiveness c x main_temp main_velocity *
      ((main_temp : ℝ) - (c.coolant_temp : ℝ))

/-- Method `FilmCoolingAnalysis.calculate_heat_transfer_coefficient`:
`Re = main_velocity * x * air_density / air_viscosity`,
`Nu = 0.0296 * Re**0.8 * blowing_ratio**0.2`, result `Nu * k_air / x`. -/
noncomputable def calculate_heat_transfer_coefficient (c : InjectionConfig)
    (x main_velocity : ℚ) : ℝ :=
  let Re : ℚ := main_velocity * x *
    (COOLANT_PROPERTIES .air).density / (COOLANT_PROPERTIES .air).viscosity
  let Nu : ℝ := 0.0296 * ((Re : ℚ) : ℝ) ^ (0.8 : ℝ) *
    ((c.blowing_ratio : ℚ) : ℝ) ^ (0.2 : ℝ)
  Nu * ((COOLANT_PROPERTIES CoolantType.air).thermal_conductivity : ℝ) / (x : ℝ)

/-- Clamping into [0, 1] is monotone. -/
theorem clamp_mono {a b : ℝ} (h : a ≤ b) :
    max 0 (min 1 a) ≤ max 0 (min 1 b) :=
  max_le_max le_rfl (min_le_min le_rfl h)

/-- Clamping a nonpositive value into [0, 1] gives 0. -/
theorem clamp_of_nonpos {a : ℝ} (h : a ≤ 0) : max 0 (min 1 a) = 0 :=
  max_eq_left ((min_le_right 1 a).trans h)

/-- C2: for every valid `InjectionConfig`, distance x > 0 and positive
mainstream velocity, the clamped effectiveness lies in [0, 1]. -/
theorem effectiveness_bounded (c : InjectionConfig) (x Tm Vm : ℚ)
    (hc : c.Valid) (hx : 0 < x) (hv : 0 < Vm) :
    0 ≤ calculate_effectiveness c x Tm Vm ∧ calculate_effectiveness c x Tm Vm ≤ 1 := by
  unfold calculate_effectiveness
  exact ⟨le_max_left _ _, max_le zero_le_one (min_le_left _ _)⟩

/-- Sample valid injection configuration used for concrete checks:
30° from wall, 1 cm slot, blowing ratio 2, air coolant at 300 K injected
at 50 m/s. -/
def sampleConfig : InjectionConfig :=
  { angle := 30, slot_height := 1/100, slot_width := 1/100,
    blowing_ratio := 2, coolant_type := .air,
    coolant_temp := 300, coolant_velocity := 50 }

/-- Witness for C2 at the sample configuration, x = 1, Tm = 300, Vm = 100. -/
theorem effectiveness_bounded_witness :
    sampleConfig.Valid ∧ (0:ℚ) < 1 ∧ (0:ℚ) < 100 ∧
      0 ≤ calculate_effectiveness sampleConfig 1 300 100 ∧
      calculate_effectiveness sampleConfig 1 300 100 ≤ 1 :=
  ⟨by norm_num [sampleConfig, InjectionConfig.Valid], by norm_num, by norm_num,
    (effectiveness_bounded sampleConfig 1 300 100
      (by norm_num [sampleConfig, InjectionConfig.Valid]) (by norm_num) (by norm_num)).1,
    (effectiveness_bounded sampleConfig 1 300 100
      (by norm_num [sampleConfig, InjectionConfig.Valid]) (by norm_num) (by norm_num)).2⟩

/-- Clamped `A * r * af` is antitone in the positive factor r. -/
theorem clamp_mul_antitone (A af : ℝ) {r1 r2 : ℝ} (hr : r2 ≤ r1) (hp2 : 0 < r2) :
    max 0 (min 1 (A * r2 * af)) ≤ max 0 (min 1 (A * r1 * af)) := by
  rcases le_or_lt 0 (A * af) with hAaf | hAaf
  · apply clamp_mono
    rw [show A * r2 * af = A * af * r2 from by ring,
        show A * r1 * af = A * af * r1 from by ring]
    exact mul_le_mul_of_nonneg_left hr hAaf
  · have hp1 : 0 < r1 := lt_of_lt_of_le hp2 hr
    have n2 : A * af * r2 < 0 := mul_neg_of_neg_of_pos hAaf hp2
    have n1 : A * af * r1 < 0 := mul_neg_of_neg_of_pos hAaf hp1
    rw [clamp_of_nonpos (by rw [show A * r2 * af = A * af * r2 from by ring]; exact n2.le),
        clamp_of_nonpos (by rw [show A * r1 * af = A * af * r1 from by ring]; exact n1.le)]

/-- C4: for a fixed valid `InjectionConfig`, fixed mainstream temperature and
positive velocity, and distances x2 > x1 > 0, the effectiveness is
non-increasing: `calculate_effectiveness` at x2 is ≤ its value at x1. -/
theorem effectiveness_antitone (c : InjectionConfig) (x1 x2 Tm Vm : ℚ)
    (hc : c.Valid) (hv : 0 < Vm) (h1 : 0 < x1) (h12 : x1 < x2) :
    calculate_effectiveness c x2 Tm Vm ≤ calculate_effectiveness c x1 Tm Vm := by
  obtain ⟨-, -, hs, -, -, -, -⟩ := hc
  have hq1 : (0:ℚ) < x1 / c.slot_height := div_pos h1 hs
  have hq12 : x1 / c.slot_height ≤ x2 / c.slot_height := by gcongr
  have h1R : (0:ℝ) < ((x1 / c.slot_height : ℚ) : ℝ) := by exact_mod_cast hq1
  have h12R : ((x1 / c.slot_height : ℚ) : ℝ) ≤ ((x2 / c.slot_height : ℚ) : ℝ) := by
    exact_mod_cast hq12
  have hr : ((x2 / c.slot_height : ℚ) : ℝ) ^ (-0.2 : ℝ) ≤
      ((x1 / c.slot_height : ℚ) : ℝ) ^ (-0.2 : ℝ) :=
    Real.rpow_le_rpow_of_nonpos h1R h12R (by norm_num)
  have hp2 : (0:ℝ) < ((x2 / c.slot_height : ℚ) : ℝ) ^ (-0.2 : ℝ) :=
    Real.rpow_pos_of_pos (lt_of_lt_of_le h1R h12R) _
  simp only [calculate_effectiveness]
  exact clamp_mul_antitone _ _ hr hp2

/-- Witness for C4 at the sample configuration, x1 = 1 < x2 = 2. -/
theorem effectiveness_antitone_witness :
    sampleConfig.Valid ∧ (0:ℚ) < 100 ∧ (0:ℚ) < 1 ∧ (1:ℚ) < 2 ∧
      calculate_effectiveness sampleConfig 2 300 100 ≤
        calculate_effectiveness sampleConfig 1 300 100 :=
  ⟨by norm_num [sampleConfig, InjectionConfig.Valid], by norm_num, by norm_num, by norm_num,
    effectiveness_antitone sampleConfig 1 2 300 100
      (by norm_num [sampleConfig, InjectionConfig.Valid]) (by norm_num) (by norm_num) (by norm_num)⟩

/-- C3 counterexample: for the sample configuration (blowing ratio 2, air
coolant, injection velocity 50) with mainstream velocity 50, the momentum
ratio the code computes is 2 — the blowing ratio to the first power — while
the claimed formula BR² · (ρ_c/ρ_air) · (V_c/V_main)² gives 4. -/
theorem momentum_ratio_counterexample :
    momentum_ratio sampleConfig 50 = 2 ∧
    sampleConfig.blowing_ratio ^ 2 *
      ((COOLANT_PROPERTIES sampleConfig.coolant_type).density /
        (COOLANT_PROPERTIES CoolantType.air).density) *
      (sampleConfig.coolant_velocity / 50) ^ 2 = 4 ∧
    (2 : ℚ) ≠ 4 := by
  refine ⟨?_, ?_, by norm_num⟩ <;>
    norm_num [momentum_ratio, sampleConfig, COOLANT_PROPERTIES]

/-- C3 (amended): the momentum ratio used inside `calculate_effectiveness`
is `BR · (ρ_coolant/ρ_air) · (V_coolant/V_main)²` — the blowing ratio enters
to the first power, not squared — and the effectiveness is
`clamp(1.9 · I^0.2 · (x/slot_height)^(−0.2) · cos(angle·π/180), 0, 1)`
with that I. -/
theorem momentum_ratio_first_power (c : InjectionConfig) (x Tm Vm : ℚ)
    (hv : Vm ≠ 0) :
    momentum_ratio c Vm =
      c.blowing_ratio *
        ((COOLANT_PROPERTIES c.coolant_type).density /
          (COOLANT_PROPERTIES CoolantType.air).density) *
        (c.coolant_velocity / Vm) ^ 2 ∧
    calculate_effectiveness c x Tm Vm =
      max 0 (min 1 (1.9 * ((momentum_ratio c Vm : ℚ) : ℝ) ^ (0.2 : ℝ) *
        ((x / c.slot_height : ℚ) : ℝ) ^ (-0.2 : ℝ) *
        Real.cos ((c.angle : ℝ) * Real.pi / 180))) :=
  ⟨rfl, rfl⟩

/-- Witness for C3 (amended) at the sample configuration. -/
theorem momentum_ratio_first_power_witness :
    (50 : ℚ) ≠ 0 ∧
      momentum_ratio sampleConfig 50 =
        sampleConfig.blowing_ratio *
          ((COOLANT_PROPERTIES sampleConfig.coolant_type).density /
            (COOLANT_PROPERTIES CoolantType.air).density) *
          (sampleConfig.coolant_velocity / 50) ^ 2 :=
  ⟨by norm_num, (momentum_ratio_first_power sampleConfig 1 300 50 (by norm_num)).1⟩

/-! ## Singularity of the correlations at x = 0 (C8)

At `x = 0` the Python code raises built-in exceptions, not a custom
DomainError: in `calculate_effectiveness` the factor `x_plus ** (-0.2)`
evaluates `0.0 ** -0.2`, which raises
`ZeroDivisionError("0.0 cannot be raised to a negative power")`; in
`calculate_heat_transfer_coefficient` the Reynolds number is 0, the Nusselt
number is 0, and the final `Nu * k / x` divides by zero, raising
`ZeroDivisionError("float division by zero")`. The two models below embed
exactly the raising behaviour of the two method bodies, in evaluation
order. -/

/-- Exception behaviour of `FilmCoolingAnalysis.calculate_effectiveness`:
`(coolant_velocity / main_velocity)` raises on a zero mainstream velocity,
`x / slot_height` raises on a zero slot height, `x_plus ** (-0.2)` raises
`ZeroDivisionError` on `x_plus == 0`, and a negative base under a fractional
power yields a complex value which makes the later `min(1.0, …)` comparison
raise a TypeError. Otherwise the call returns normally (with the value given
by `calculate_effectiveness`). -/
def calculate_effectiveness_exc (c : InjectionConfig)
    (x main_temp main_velocity : ℚ) : Except PyErr Unit :=
  if main_velocity = 0 then .error (.zeroDivisionError "float division by zero")
  else if c.slot_height = 0 then .error (.zeroDivisionError "float division by zero")
  else if x / c.slot_height = 0 then
    .error (.zeroDivisionError "0.0 cannot be raised to a negative power")
  else if momentum_ratio c main_velocity < 0 ∨ x / c.slot_height < 0 then
    .error (.typeError "complex value in comparison")
  else .ok ()

/-- Exception behaviour of
`FilmCoolingAnalysis.calculate_heat_transfer_coefficient`: a negative
Reynolds number or blowing ratio under a fractional power yields a complex
Nusselt number (which propagates without raising unless the final division
is by zero); the final `Nu * k / x` raises `ZeroDivisionError` when
`x == 0`. Otherwise the call returns normally (with the value given by
`calculate_heat_transfer_coefficient`). -/
def calculate_heat_transfer_coefficient_exc (c : InjectionConfig)
    (x main_velocity : ℚ) : Except PyErr Unit :=
  let Re : ℚ := main_velocity * x *
    (COOLANT_PROPERTIES .air).density / (COOLANT_PROPERTIES .air).viscosity
  if Re < 0 ∨ c.blowing_ratio < 0 then
    if x = 0 then .error (.zeroDivisionError "complex division by zero") else .ok ()
  else if x = 0 then .error (.zeroDivisionError "float division by zero")
  else .ok ()

/-- C8 counterexample: at the sample configuration and x = 0 both
correlations fail (no infinite value is produced), but with built-in
`ZeroDivisionError`s, not with the DomainError kind the claim names. -/
theorem singularity_counterexample :
    failsWithDomainError (calculate_effectiveness_exc sampleConfig 0 300 100) = false ∧
    succeeds (calculate_effectiveness_exc sampleConfig 0 300 100) = false ∧
    failsWithDomainError (calculate_heat_transfer_coefficient_exc sampleConfig 0 100) = false ∧
    succeeds (calculate_heat_transfer_coefficient_exc sampleConfig 0 100) = false := by
  have h1 : calculate_effectiveness_exc sampleConfig 0 300 100 =
      .error (.zeroDivisionError "0.0 cannot be raised to a negative power") := by
    norm_num [calculate_effectiveness_exc, sampleConfig]
  have h2 : calculate_heat_transfer_coefficient_exc sampleConfig 0 100 =
      .error (.zeroDivisionError "float division by zero") := by
    norm_num [calculate_heat_transfer_coefficient_exc, sampleConfig, COOLANT_PROPERTIES]
  rw [h1, h2]
  exact ⟨rfl, rfl, rfl, rfl⟩

/-- C8 (amended): for every valid configuration and positive mainstream
velocity, evaluating the effectiveness correlation at x = 0 fails with
`ZeroDivisionError("0.0 cannot be raised to a negative power")` and the
heat-transfer correlation at x = 0 fails with
`ZeroDivisionError("float division by zero")` — built-in exceptions rather
than an infinite value, but not the DomainError the claim names; callers
must supply x > 0. -/
theorem singular_at_zero (c : InjectionConfig) (Tm Vm : ℚ)
    (hc : c.Valid) (hv : 0 < Vm) :
    calculate_effectiveness_exc c 0 Tm Vm =
      .error (.zeroDivisionError "0.0 cannot be raised to a negative power") ∧
    calculate_heat_transfer_coefficient_exc c 0 Vm =
      .error (.zeroDivisionError "float division by zero") := by
  obtain ⟨-, -, hs, -, hb, -, -⟩ := hc
  constructor
  · unfold calculate_effectiveness_exc
    rw [if_neg hv.ne', if_neg hs.ne', if_pos (zero_div c.slot_height)]
  · unfold calculate_heat_transfer_coefficient_exc
    rw [mul_zero, zero_mul, zero_div]
    rw [if_neg ?nonneg, if_pos rfl]
    case nonneg =>
      rintro (h | h)
      · exact lt_irrefl 0 h
      · exact absurd h (not_lt.mpr hb.le)

/-- Witness for C8 (amended) at the sample configuration. -/
theorem singular_at_zero_witness :
    sampleConfig.Valid ∧ (0:ℚ) < 100 ∧
      calculate_effectiveness_exc sampleConfig 0 300 100 =
        .error (.zeroDivisionError "0.0 cannot be raised to a negative power") ∧
      calculate_heat_transfer_coefficient_exc sampleConfig 0 100 =
        .error (.zeroDivisionError "float division by zero") :=
  ⟨by norm_num [sampleConfig, InjectionConfig.Valid], by norm_num,
    (singular_at_zero sampleConfig 300 100
      (by norm_num [sampleConfig, InjectionConfig.Valid]) (by norm_num)).1,
    (singular_at_zero sampleConfig 300 100
      (by norm_num [sampleConfig, InjectionConfig.Valid]) (by norm_num)).2⟩

/-! ## Batch driver `analyze_cooling_performance` (C10)

The driver builds a dict with the three fixed keys bound to empty lists and
then, for each x in `x_points` in order, appends the three per-point
quantities to the corresponding lists. The loop body calls
`calculate_effectiveness`, `calculate_wall_temperature` (which re-runs
`calculate_effectiveness` on the same arguments) and
`calculate_heat_transfer_coefficient`; any exception one of them raises
(see the `_exc` models above: x = 0, a zero slot height or a zero
mainstream velocity, negative bases under fractional powers) aborts the
whole call, so the dict is only returned when every sample evaluates
normally. `analyze_loop`/`analyze_cooling_performance` below give the
values of that normal path; `analyze_loop_exc` /
`analyze_cooling_performance_exc` carry the exception propagation of the
loop. -/

/-- The accumulation loop of `analyze_cooling_performance`, values of the
normal (non-raising) path: one append to each of the three result lists per
x, in input order. Exception propagation is modelled by `analyze_loop_exc`. -/
noncomputable def analyze_loop (c : InjectionConfig) (Tm Vm : ℚ) :
    List ℚ → List ℝ × List ℝ × List ℝ → List ℝ × List ℝ × List ℝ
  | [], acc => acc
  | x :: rest, (es, ws, hs) =>
      analyze_loop c Tm Vm rest
        (es ++ [calculate_effectiveness c x Tm Vm],
         ws ++ [calculate_wall_temperature c x Tm Vm],
         hs ++ [calculate_heat_transfer_coefficient c x Vm])

/-- Function `analyze_cooling_performance`, values of the normal
(non-raising) path: the returned dict, modelled as an association list with
the three keys in insertion order. The exception behaviour of the same call
is `analyze_cooling_performance_exc`. -/
noncomputable def analyze_cooling_performance (c : InjectionConfig)
    (x_points : List ℚ) (main_temp main_velocity : ℚ) : List (String × List ℝ) :=
  let r := analyze_loop c main_temp main_velocity x_points ([], [], [])
  [("effectiveness", r.1), ("wall_temperature", r.2.1),
   ("heat_transfer_coefficient", r.2.2)]

/-- The accumulation loop with the exception propagation of the Python
for-loop: per x the body evaluates `calculate_effectiveness` first (also on
behalf of `calculate_wall_temperature`, which re-runs it on the same
arguments and adds only arithmetic) and `calculate_heat_transfer_coefficient`
after it; the first exception raised aborts the whole loop. -/
noncomputable def analyze_loop_exc (c : InjectionConfig) (Tm Vm : ℚ) :
    List ℚ → List ℝ × List ℝ × List ℝ → Except PyErr (List ℝ × List ℝ × List ℝ)
  | [], acc => .ok acc
  | x :: rest, (es, ws, hs) =>
    match calculate_effectiveness_exc c x Tm Vm with
    | .error e => .error e
    | .ok _ =>
      match calculate_heat_transfer_coefficient_exc c x Vm with
      | .error e => .error e
      | .ok _ =>
        analyze_loop_exc c Tm Vm rest
          (es ++ [calculate_effectiveness c x Tm Vm],
           ws ++ [calculate_wall_temperature c x Tm Vm],
           hs ++ [calculate_heat_transfer_coefficient c x Vm])

/-- Exception-aware model of `analyze_cooling_performance`: returns the
three-key dict exactly when no per-point call raises, and propagates the
first exception otherwise. -/
noncomputable def analyze_cooling_performance_exc (c : InjectionConfig)
    (x_points : List ℚ) (main_temp main_velocity : ℚ) :
    Except PyErr (List (String × List ℝ)) :=
  match analyze_loop_exc c main_temp main_velocity x_points ([], [], []) with
  | .error e => .error e
  | .ok r => .ok [("effectiveness", r.1), ("wall_temperature", r.2.1),
                  ("heat_transfer_coefficient", r.2.2)]

/-- The appending loop produces exactly the three mapped lists. -/
theorem analyze_loop_eq (c : InjectionConfig) (Tm Vm : ℚ) (xs : List ℚ)
    (es ws hs : List ℝ) :
    analyze_loop c Tm Vm xs (es, ws, hs) =
      (es ++ xs.map (fun x => calculate_effectiveness c x Tm Vm),
       ws ++ xs.map (fun x => calculate_wall_temperature c x Tm Vm),
       hs ++ xs.map (fun x => calculate_heat_transfer_coefficient c x Vm)) := by
  induction xs generalizing es ws hs with
  | nil => simp [analyze_loop]
  | cons x rest ih => simp [analyze_loop, ih]

/-- Every coolant density in the table is positive. -/
theorem coolant_density_pos (ct : CoolantType) :
    0 < (COOLANT_PROPERTIES ct).density := by
  cases ct <;> norm_num [COOLANT_PROPERTIES]

/-- On a valid configuration with positive mainstream velocity, a per-point
evaluation at x > 0 raises no exception. -/
theorem per_point_ok (c : InjectionConfig) (x Tm Vm : ℚ)
    (hc : c.Valid) (hv : 0 < Vm) (hx : 0 < x) :
    calculate_effectiveness_exc c x Tm Vm = .ok () ∧
    calculate_heat_transfer_coefficient_exc c x Vm = .ok () := by
  obtain ⟨-, -, hs, -, hb, -, -⟩ := hc
  have hxp : 0 < x / c.slot_height := div_pos hx hs
  have hmr : 0 ≤ momentum_ratio c Vm :=
    mul_nonneg
      (mul_nonneg hb.le
        (div_nonneg (coolant_density_pos _).le (coolant_density_pos _).le))
      (sq_nonneg _)
  constructor
  · unfold calculate_effectiveness_exc
    rw [if_neg hv.ne', if_neg hs.ne', if_neg hxp.ne', if_neg]
    rintro (h | h)
    · exact absurd h (not_lt.mpr hmr)
    · exact absurd h (not_lt.mpr hxp.le)
  · have hRe : 0 < Vm * x *
        (COOLANT_PROPERTIES .air).density / (COOLANT_PROPERTIES .air).viscosity :=
      div_pos (mul_pos (mul_pos hv hx) (coolant_density_pos _))
        (by norm_num [COOLANT_PROPERTIES])
    simp only [calculate_heat_transfer_coefficient_exc]
    rw [if_neg, if_neg hx.ne']
    rintro (h | h)
    · exact absurd h (not_lt.mpr hRe.le)
    · exact absurd h (not_lt.mpr hb.le)

/-- When no sample can raise, the exception-aware loop returns the values of
the normal path. -/
theorem analyze_loop_exc_eq (c : InjectionConfig) (Tm Vm : ℚ) (xs : List ℚ)
    (hc : c.Valid) (hv : 0 < Vm) (hxs : ∀ x ∈ xs, 0 < x) (es ws hs : List ℝ) :
    analyze_loop_exc c Tm Vm xs (es, ws, hs) =
      .ok (analyze_loop c Tm Vm xs (es, ws, hs)) := by
  induction xs generalizing es ws hs with
  | nil => rfl
  | cons x rest ih =>
    have hpp := per_point_ok c x Tm Vm hc hv (hxs x (List.mem_cons_self _ _))
    simp only [analyze_loop_exc, analyze_loop, hpp.1, hpp.2]
    exact ih (fun y hy => hxs y (List.mem_cons_of_mem _ hy)) _ _ _

/-- C10 counterexample: at the (valid) sample configuration with
x_points = [0] the driver does not return the three-key mapping — the first
sample's `x_plus ** (-0.2)` raises `ZeroDivisionError`, which aborts the
whole call. -/
theorem analyze_cooling_performance_counterexample :
    analyze_cooling_performance_exc sampleConfig [0] 300 100 =
      .error (.zeroDivisionError "0.0 cannot be raised to a negative power") ∧
    succeeds (analyze_cooling_performance_exc sampleConfig [0] 300 100) = false := by
  have h1 : calculate_effectiveness_exc sampleConfig 0 300 100 =
      .error (.zeroDivisionError "0.0 cannot be raised to a negative power") := by
    norm_num [calculate_effectiveness_exc, sampleConfig]
  have h : analyze_cooling_performance_exc sampleConfig [0] 300 100 =
      .error (.zeroDivisionError "0.0 cannot be raised to a negative power") := by
    simp only [analyze_cooling_performance_exc, analyze_loop_exc, h1]
  exact ⟨h, by rw [h]; rfl⟩

/-- C10 (amended): for every valid configuration, positive mainstream
velocity and list of positions that are all positive, the driver returns
normally, and the result has exactly the keys effectiveness,
wall_temperature and heat_transfer_coefficient, in that order; each is bound
to a list of the same length as `x_points` whose i-th element is the
corresponding per-point quantity evaluated at `x_points[i]` (input order,
each sample a function of its own x only). When some position is not
positive (for example x = 0) the call raises instead of returning a
mapping. -/
theorem analyze_cooling_performance_spec (c : InjectionConfig) (xs : List ℚ)
    (Tm Vm : ℚ) (hc : c.Valid) (hv : 0 < Vm) (hxs : ∀ x ∈ xs, 0 < x) :
    analyze_cooling_performance_exc c xs Tm Vm =
      .ok (analyze_cooling_performance c xs Tm Vm) ∧
    analyze_cooling_performance c xs Tm Vm =
      [("effectiveness", xs.map fun x => calculate_effectiveness c x Tm Vm),
       ("wall_temperature", xs.map fun x => calculate_wall_temperature c x Tm Vm),
       ("heat_transfer_coefficient", xs.map fun x => calculate_heat_transfer_coefficient c x Vm)] ∧
    (analyze_cooling_performance c xs Tm Vm).map Prod.fst =
      ["effectiveness", "wall_temperature", "heat_transfer_coefficient"] ∧
    ((analyze_cooling_performance c xs Tm Vm).map fun p => p.2.length) =
      [xs.length, xs.length, xs.length] ∧
    (∀ i : ℕ, (xs.map fun x => calculate_effectiveness c x Tm Vm).get? i =
      (xs.get? i).map fun x => calculate_effectiveness c x Tm Vm) ∧
    (∀ i : ℕ, (xs.map fun x => calculate_wall_temperature c x Tm Vm).get? i =
      (xs.get? i).map fun x => calculate_wall_temperature c x Tm Vm) ∧
    (∀ i : ℕ, (xs.map fun x => calculate_heat_transfer_coefficient c x Vm).get? i =
      (xs.get? i).map fun x => calculate_heat_transfer_coefficient c x Vm) := by
  have hmain : analyze_cooling_performance c xs Tm Vm =
      [("effectiveness", xs.map fun x => calculate_effectiveness c x Tm Vm),
       ("wall_temperature", xs.map fun x => calculate_wall_temperature c x Tm Vm),
       ("heat_transfer_coefficient", xs.map fun x => calculate_heat_transfer_coefficient c x Vm)] := by
    simp [analyze_cooling_performance, analyze_loop_eq]
  refine ⟨?_, hmain, ?_, ?_, ?_, ?_, ?_⟩
  · simp only [analyze_cooling_performance_exc,
      analyze_loop_exc_eq c Tm Vm xs hc hv hxs, analyze_cooling_performance]
  · rw [hmain]; rfl
  · rw [hmain]; simp
  · intro i; simp [List.get?_eq_getElem?, List.getElem?_map]
  · intro i; simp [List.get?_eq_getElem?, List.getElem?_map]
  · intro i; simp [List.get?_eq_getElem?, List.getElem?_map]

/-- Witness for C10 (amended) at the sample configuration and x_points = [1]. -/
theorem analyze_cooling_performance_spec_witness :
    analyze_cooling_performance_exc sampleConfig [1] 300 100 =
      .ok (analyze_cooling_performance sampleConfig [1] 300 100) ∧
    (analyze_cooling_performance sampleConfig [1] 300 100).map Prod.fst =
      ["effectiveness", "wall_temperature", "heat_transfer_coefficient"] :=
  ⟨(analyze_cooling_performance_spec sampleConfig [1] 300 100
      (by norm_num [sampleConfig, InjectionConfig.Valid]) (by norm_num)
      (by intro x hx; rw [List.mem_singleton] at hx; rw [hx]; norm_num)).1,
   (analyze_cooling_performance_spec sampleConfig [1] 300 100
      (by norm_num [sampleConfig, InjectionConfig.Valid]) (by norm_num)
      (by intro x hx; rw [List.mem_singleton] at hx; rw [hx]; norm_num)).2.2.1⟩

/-! ## Validation comparator (`cfd_integration.py`, C7)

`OpenFOAMIntegration.validate_with_analytical` iterates over the analytical
mapping in order; for each key also present in the observed results it
stores `{'relative_error': abs(observed - analytical) / analytical,
'absolute_error': abs(observed - analytical)}`. The division raises a plain
`ZeroDivisionError` when the analytical value is 0.0 — the code performs no
zero check and defines no ValidationError class. Keys present in only one
mapping are skipped. -/

/-- Python `key in dict` / `dict[key]` on an insertion-ordered mapping. -/
def dictLookup (k : String) : List (String × ℚ) → Option ℚ
  | [] => none
  | (k', v) :: rest => if k = k' then some v else dictLookup k rest

/-- The loop body of `validate_with_analytical`: iterate the analytical
items in order, skip keys missing from the observed results, divide by the
analytical value (raising `ZeroDivisionError` when it is zero), and collect
`(key, (relative_error, absolute_error))` entries. -/
def validate_go (cfd : List (String × ℚ)) :
    List (String × ℚ) → Except PyErr (List (String × ℚ × ℚ))
  | [] => .ok []
  | (k, av) :: rest =>
    match dictLookup k cfd with
    | none => validate_go cfd rest
    | some cv =>
      if av = 0 then .error (.zeroDivisionError "float division by zero")
      else
        match validate_go cfd rest with
        | .error e => .error e
        | .ok tail => .ok ((k, (abs (cv - av) / av, abs (cv - av))) :: tail)

/-- Method `validate_with_analytical(analytical_results)` with the observed CFD
results `cfd` as the comparison mapping. -/
def validate_with_analytical (analytical cfd : List (String × ℚ)) :
    Except PyErr (List (String × ℚ × ℚ)) :=
  validate_go cfd analytical

/-- C7 counterexample: with analytical thrust = 0 and observed thrust = 950
the comparator fails, but with the raw `ZeroDivisionError` of the division —
no ValidationError is raised (no such class exists in the code). -/
theorem validate_zero_counterexample :
    validate_with_analytical [("thrust", 0)] [("thrust", 950)] =
      .error (.zeroDivisionError "float division by zero") ∧
    failsWithValidationError
      (validate_with_analytical [("thrust", 0)] [("thrust", 950)]) = false := by
  have h : validate_with_analytical [("thrust", 0)] [("thrust", 950)] =
      .error (.zeroDivisionError "float division by zero") := by
    simp [validate_with_analytical, validate_go, dictLookup]
  exact ⟨h, by rw [h]; rfl⟩

/-- C7 (amended): for every parameter present in both mappings the comparator
returns relative_error = |observed − analytical| / analytical and
absolute_error = |observed − analytical|, and parameters present in only one
mapping are skipped; but when the analytical value of a shared parameter is
exactly zero it fails with the raw `ZeroDivisionError` of the division, not
with an explicit ValidationError. -/
theorem validate_with_analytical_spec (analytical cfd : List (String × ℚ)) :
    ((∀ k av, (k, av) ∈ analytical → (dictLookup k cfd).isSome → av ≠ 0) →
      validate_with_analytical analytical cfd =
        .ok (analytical.filterMap (fun p =>
          (dictLookup p.1 cfd).map
            (fun cv => (p.1, (abs (cv - p.2) / p.2, abs (cv - p.2))))))) ∧
    (∀ k cv, (k, (0:ℚ)) ∈ analytical → dictLookup k cfd = some cv →
      validate_with_analytical analytical cfd =
        .error (.zeroDivisionError "float division by zero")) := by
  unfold validate_with_analytical
  induction analytical with
  | nil =>
    constructor
    · intro _; rfl
    · intro k cv hm _; exact absurd hm (List.not_mem_nil _)
  | cons hd rest ih =>
    obtain ⟨k', av'⟩ := hd
    constructor
    · intro hno
      have hrest := ih.1 fun k av hm hs => hno k av (List.mem_cons_of_mem _ hm) hs
      cases hcase : dictLookup k' cfd with
      | none => simp [validate_go, hcase, hrest]
      | some cv =>
        have hav : av' ≠ 0 :=
          hno k' av' (List.mem_cons_self _ _) (by simp [hcase])
        simp [validate_go, hcase, hav, hrest]
    · intro k cv hm hl
      rcases List.mem_cons.mp hm with heq | hm'
      · rw [show k' = k from (Prod.mk.injEq _ _ _ _ ▸ heq.symm).1,
            show av' = 0 from (Prod.mk.injEq _ _ _ _ ▸ heq.symm).2]
        simp [validate_go, hl]
      · have herr := ih.2 k cv hm' hl
        cases hcase : dictLookup k' cfd with
        | none => simp [validate_go, hcase, herr]
        | some cv' =>
          by_cases hav : av' = 0
          · simp [validate_go, hcase, hav]
          · simp [validate_go, hcase, hav, herr]

/-- Witness for C7 (amended), spec Scenario E: analytical thrust = 1000,
observed thrust = 950 gives relative error 1/20 = 0.05 and absolute error 50. -/
theorem validate_with_analytical_spec_witness :
    validate_with_analytical [("thrust", 1000)] [("thrust", 950)] =
      .ok [("thrust", (1/20, 50))] := by
  have h := (validate_with_analytical_spec [("thrust", 1000)] [("thrust", 950)]).1 ?hyp
  case hyp =>
    intro k av hm _
    simp only [List.mem_singleton, Prod.mk.injEq] at hm
    rw [hm.2]; norm_num
  rw [h]
  norm_num [dictLookup, List.filterMap]

end NozzleCalc
